import Mathlib

/-!
Verification development for a static HTTP file server (`server.js`).

The server's request pipeline is embedded shallowly: the handler becomes a
pure function of a request descriptor and an abstract filesystem, returning
the HTTP response together with the list of filesystem paths it touched
(stat or open).  Platform primitives used by the source (the Node `path`
module, the WHATWG URL parser, JavaScript date handling, and the
`http.ServerResponse` body-suppression rules) are modelled by executable
Lean functions, each documented at its definition with the exact platform
behaviour it reflects and, where applicable, the input domain on which the
model is faithful.

All string processing is implemented by structural recursion over character
lists so that every definition evaluates inside the kernel.
-/

set_option autoImplicit false

/-! ## Character-list string helpers -/

/-- Is the first list a prefix of the second (character by character)? -/
def listPre : List Char → List Char → Bool
  | [], _ => true
  | _ :: _, [] => false
  | a :: as, b :: bs => a == b && listPre as bs

/-- Does the second list contain the first as a contiguous sublist? -/
def listSub (p : List Char) : List Char → Bool
  | [] => listPre p []
  | c :: rest => listPre p (c :: rest) || listSub p rest

/-- Model of JavaScript `String.prototype.includes`. -/
def strContains (s pat : String) : Bool := listSub pat.data s.data

/-- Model of JavaScript `String.prototype.startsWith`. -/
def strStarts (s pre : String) : Bool := listPre pre.data s.data

/-- Does the string end with the given suffix? -/
def strEnds (s suf : String) : Bool := listPre suf.data.reverse s.data.reverse

/-- Split a character list at every occurrence of the separator character. -/
def splitCharAux (sep : Char) (cur : List Char) : List Char → List (List Char)
  | [] => [cur.reverse]
  | x :: xs =>
    if x == sep then cur.reverse :: splitCharAux sep [] xs
    else splitCharAux sep (x :: cur) xs

/-- Model of JavaScript `String.prototype.split` with a one-character separator. -/
def splitChar (sep : Char) (s : String) : List String :=
  (splitCharAux sep [] s.data).map String.mk

/-- Join strings with a separator (model of `Array.prototype.join`). -/
def joinSep (sep : String) : List String → String
  | [] => ""
  | [x] => x
  | x :: y :: xs => x ++ sep ++ joinSep sep (y :: xs)

/-- The characters of the string strictly before the first occurrence of `c`. -/
def takeUntilChar (c : Char) (s : String) : String :=
  String.mk (s.data.takeWhile (fun x => x != c))

/-- Lowercase a single ASCII letter, leaving other characters unchanged. -/
def lowerChar (c : Char) : Char :=
  if 'A' ≤ c ∧ c ≤ 'Z' then Char.ofNat (c.toNat + 32) else c

/-- Model of JavaScript `String.prototype.toLowerCase` on ASCII input. -/
def asciiLower (s : String) : String := String.mk (s.data.map lowerChar)

/-- Numeric value of a list of decimal digit characters. -/
def digitsVal (l : List Char) : Nat :=
  l.foldl (fun a c => a * 10 + (c.toNat - 48)) 0

/-- Parse a nonempty all-digit string as a natural number. -/
def parseNatDigits (s : String) : Option Nat :=
  if s ≠ "" ∧ s.data.all Char.isDigit then some (digitsVal s.data) else none

/-! ## Model of the Node.js `path` module (POSIX flavour)

`path.normalize`, `path.resolve` and `path.join` as implemented by Node's
POSIX path code: segments are split on `/`; empty and `.` segments are
dropped; a `..` segment pops the previous segment, and above the root it is
kept for relative paths (`allowAbove = true`) and discarded for absolute
ones (`allowAbove = false`). -/

/-- One step of Node's `normalizeString` segment loop.  The stack is kept in
reverse order (head = most recent segment). -/
def normStep (allowAbove : Bool) (stack : List String) (seg : String) : List String :=
  if seg = "" ∨ seg = "." then stack
  else if seg = ".." then
    match stack with
    | top :: rest =>
      if top ≠ ".." then rest
      else if allowAbove then seg :: stack else stack
    | [] => if allowAbove then [seg] else []
  else seg :: stack

/-- Model of POSIX `path.normalize`. -/
def pathNormalize (p : String) : String :=
  if p = "" then "."
  else
    let abs := strStarts p "/"
    let trail := strEnds p "/"
    let stack := ((splitChar '/' p).foldl (normStep !abs) []).reverse
    let core := joinSep "/" stack
    if core = "" then
      if abs then "/" else if trail then "./" else "."
    else
      let r := if abs then "/" ++ core else core
      if trail then r ++ "/" else r

/-- Model of the working directory used by `path.resolve` for relative
inputs; the server only ever resolves absolute paths, so this constant is
never reached by the claims. -/
def CWD : String := "/app"

/-- Model of POSIX `path.resolve` with a single argument. -/
def pathResolve (p : String) : String :=
  let q := if strStarts p "/" then p else CWD ++ "/" ++ p
  let stack := ((splitChar '/' q).foldl (normStep false) []).reverse
  if stack = [] then "/" else "/" ++ joinSep "/" stack

/-- Model of POSIX `path.join` with two arguments. -/
def pathJoin (a b : String) : String :=
  if a = "" ∧ b = "" then "."
  else if a = "" then pathNormalize b
  else if b = "" then pathNormalize a
  else pathNormalize (a ++ "/" ++ b)

/-- Model of POSIX `path.extname`: the extension of the final path segment,
including the dot; a dot in first position of the segment (dotfiles) and the
special segments `.` and `..` give the empty extension. -/
def extname (p : String) : String :=
  let base := (splitChar '/' p).getLastD ""
  if base = "." ∨ base = ".." then ""
  else
    let idxs := (List.range base.data.length).filter
      (fun i => base.data.getD i ' ' == '.')
    match idxs.getLast? with
    | none => ""
    | some 0 => ""
    | some i => String.mk (base.data.drop i)

/-! ## Model of the WHATWG URL parser as used by `new URL(target, base)`

The source builds the base as the template string `http://<host>` from the
request's `Host` header and parses the raw target against it, reading off
`url.pathname`.  The model below is faithful on the input domain the
development exercises: ASCII targets that are path-absolute (or schemeless
relative) and contain neither backslashes nor characters the parser would
re-encode, and hosts without percent-escapes or IPv6 literals.  Within that
domain the parser (a) fails exactly when the synthetic base has an invalid
authority, (b) strips the query and fragment, and (c) removes single- and
double-dot path segments, recognising them case-insensitively in both
literal and percent-encoded spelling, while leaving all other segments
byte-for-byte unchanged (valid and invalid percent-escapes alike are copied
verbatim and never cause a parse failure). -/

/-- Code points that make the host portion of `http://<host>` invalid
(forbidden host code points, restricted to the modelled domain). -/
def forbiddenHostChar (c : Char) : Bool :=
  c == ' ' || c == '%' || c == '<' || c == '>' || c == '[' ||
  c == ']' || c == '^' || c == '|' || c == '\\' || decide (c.toNat < 32)

/-- Does a host name (already stripped of userinfo and port) pass the
parser's host validation? -/
def okHostName (h : String) : Bool :=
  h ≠ "" && h.data.all (fun c => !forbiddenHostChar c)

/-- Model of WHATWG authority validation for the base `http://<host>`:
the host runs up to the first `/`, `?` or `#`; anything before a final `@`
is userinfo; an optional `:port` must be all digits and at most 65535. -/
def validHost (host : String) : Bool :=
  let authority := String.mk (host.data.takeWhile
    (fun c => c != '/' && c != '?' && c != '#'))
  let hostport := (splitChar '@' authority).getLastD authority
  match splitChar ':' hostport with
  | [h] => okHostName h
  | [h, p] => okHostName h && p.data.all Char.isDigit &&
      (parseNatDigits p).getD 0 ≤ 65535
  | _ => false

/-- Is a raw path segment a single-dot segment (`.` or `%2e`, any case)? -/
def isSingleDot (s : String) : Bool :=
  asciiLower s = "." || asciiLower s = "%2e"

/-- Is a raw path segment a double-dot segment (`..`, `.%2e`, `%2e.` or
`%2e%2e`, any case)? -/
def isDoubleDot (s : String) : Bool :=
  asciiLower s = ".." || asciiLower s = ".%2e" ||
  asciiLower s = "%2e." || asciiLower s = "%2e%2e"

/-- The URL path state: a double-dot segment pops the last accumulated
segment, a single-dot segment is dropped, and either one in final position
leaves a trailing slash (an empty final segment). -/
def processSegs (acc : List String) : List String → List String
  | [] => acc
  | [s] =>
    if isDoubleDot s then acc.dropLast ++ [""]
    else if isSingleDot s then acc ++ [""]
    else acc ++ [s]
  | s :: rest =>
    if isDoubleDot s then processSegs acc.dropLast rest
    else if isSingleDot s then processSegs acc rest
    else processSegs (acc ++ [s]) rest

/-- Model of `new URL(target, base).pathname` with base `http://<host>`:
`none` models the constructor throwing (the catch branch of the source). -/
def urlPathname (target : String) (host : String) : Option String :=
  if !validHost host then none
  else
    let noFrag := takeUntilChar '#' target
    let noQuery := takeUntilChar '?' noFrag
    let p := if strStarts noQuery "/" then noQuery else "/" ++ noQuery
    let segs :=
      match p.data with
      | [] => []
      | _ :: rest => (splitCharAux '/' [] rest).map String.mk
    some ("/" ++ joinSep "/" (processSegs [] segs))

example : urlPathname "/x" "localhost" = some "/x" := by decide
example : urlPathname "/%2e%2E/x" "localhost" = some "/x" := by decide
example : urlPathname "/a/b/.." "localhost" = some "/a/" := by decide
example : urlPathname "/%zz" "localhost" = some "/%zz" := by decide
example : urlPathname "/index.html?x=.." "localhost" = some "/index.html" := by decide
example : urlPathname "/x" "a b" = none := by decide
example : urlPathname "/x" "" = none := by decide
example : urlPathname "/x" "undefined" = some "/x" := by decide
example : urlPathname "/x" "localhost:8080" = some "/x" := by decide
example : urlPathname "" "localhost" = some "/" := by decide

/-! ## Model of JavaScript date handling

The server stores `stats.mtime` (modelled in milliseconds since the Unix
epoch), formats it with `Date.prototype.toUTCString` for the
`Last-Modified` header, and parses the `If-Modified-Since` header with
`new Date(string)`.  The parser model covers the RFC 1123 / `toUTCString`
format `Www, DD Mon YYYY HH:MM:SS GMT` for years 1970 to 9999; all other
strings are modelled as unparseable (an invalid JavaScript `Date`, whose
comparisons are all false). -/

/-- Gregorian leap-year test. -/
def isLeap (y : Nat) : Bool := (y % 4 = 0 && y % 100 ≠ 0) || y % 400 = 0

/-- The number of days in a year. -/
def daysInYear (y : Nat) : Nat := if isLeap y then 366 else 365

/-- The lengths of the twelve months of a year. -/
def monthDays (y : Nat) : List Nat :=
  [31, if isLeap y then 29 else 28, 31, 30, 31, 30, 31, 31, 30, 31, 30, 31]

/-- Days from 1970-01-01 to the first day of the given year. -/
def daysBeforeYear (y : Nat) : Nat :=
  ((List.range (y - 1970)).map (fun i => daysInYear (1970 + i))).foldl (· + ·) 0

/-- Days from the first day of the year to the first day of month `m`
(1-based). -/
def daysBeforeMonth (y m : Nat) : Nat :=
  ((monthDays y).take (m - 1)).foldl (· + ·) 0

/-- Milliseconds since the epoch of a UTC civil date-time. -/
def epochMs (y m d h mi s : Nat) : Nat :=
  ((daysBeforeYear y + daysBeforeMonth y m + (d - 1)) * 86400 +
    h * 3600 + mi * 60 + s) * 1000

/-- The three-letter English month names. -/
def monthNames : List String :=
  ["Jan", "Feb", "Mar", "Apr", "May", "Jun",
   "Jul", "Aug", "Sep", "Oct", "Nov", "Dec"]

/-- The three-letter English day-of-week names. -/
def dayNames : List String :=
  ["Sun", "Mon", "Tue", "Wed", "Thu", "Fri", "Sat"]

/-- Model of `new Date(s).getTime()` restricted to the RFC 1123 format
(the day-of-week name is accepted but not checked against the date, as in
JavaScript); `none` models an invalid date (`NaN`). -/
def dateParse (s : String) : Option Nat :=
  match splitChar ' ' s with
  | [dow, dd, mon, yyyy, hms, tz] =>
    if tz = "GMT" && dayNames.any (fun d => dow = d ++ ",") then
      match parseNatDigits dd, monthNames.findIdx? (fun mn => mn = mon),
            parseNatDigits yyyy, splitChar ':' hms with
      | some d, some m0, some y, [hh, mm, ss] =>
        match parseNatDigits hh, parseNatDigits mm, parseNatDigits ss with
        | some h, some mi, some sec =>
          if dd.length = 2 && yyyy.length = 4 && hh.length = 2 &&
             mm.length = 2 && ss.length = 2 &&
             1970 ≤ y && y ≤ 9999 && 1 ≤ d && d ≤ (monthDays y).getD m0 31 &&
             h ≤ 23 && mi ≤ 59 && sec ≤ 59
          then some (epochMs y (m0 + 1) d h mi sec) else none
        | _, _, _ => none
      | _, _, _, _ => none
    else none
  | _ => none

/-- Two-digit zero-padded decimal representation. -/
def pad2 (n : Nat) : String := if n < 10 then "0" ++ toString n else toString n

/-- Find the year containing a day count from the epoch, returning the year
and the remaining day-of-year (fuel-driven loop from 1970). -/
def yearFromDays : Nat → Nat → Nat → Nat × Nat
  | 0, d, y => (y, d)
  | fuel + 1, d, y =>
    if d < daysInYear y then (y, d) else yearFromDays fuel (d - daysInYear y) (y + 1)

/-- Find the month containing a day-of-year, returning the 1-based month
and remaining day-of-month offset. -/
def monthFromDays : List Nat → Nat → Nat → Nat × Nat
  | [], d, m => (m, d)
  | len :: rest, d, m =>
    if d < len then (m, d) else monthFromDays rest (d - len) (m + 1)

/-- Model of `Date.prototype.toUTCString` (for times at or after the
epoch): the format is `Www, DD Mon YYYY HH:MM:SS GMT`, whole-second
precision. -/
def toUTCString (ms : Nat) : String :=
  let totalSec := ms / 1000
  let days := totalSec / 86400
  let secOfDay := totalSec % 86400
  let yd := yearFromDays (days / 365 + 1) days 1970
  let md := monthFromDays (monthDays yd.1) yd.2 1
  (dayNames.getD ((days + 4) % 7) "") ++ ", " ++ pad2 md.2.succ ++ " " ++
    (monthNames.getD (md.1 - 1) "") ++ " " ++ toString yd.1 ++ " " ++
    pad2 (secOfDay / 3600) ++ ":" ++ pad2 (secOfDay % 3600 / 60) ++ ":" ++
    pad2 (secOfDay % 60) ++ " GMT"

/-- The composite `new Date(stats.mtime.toUTCString()).getTime()` from the
source: formatting a timestamp as an HTTP date and reparsing it truncates
it to whole-second precision, because the format carries no sub-second
field.  The model applies the truncation directly. -/
def truncSec (ms : Nat) : Nat := ms / 1000 * 1000

example : toUTCString 0 = "Thu, 01 Jan 1970 00:00:00 GMT" := by decide
example : dateParse "Thu, 01 Jan 1970 00:00:00 GMT" = some 0 := by decide
example : dateParse "" = none := by decide
example : dateParse "not a date" = none := by decide

example : pathNormalize "/../x" = "/x" := by decide
example : pathNormalize "" = "." := by decide
example : pathNormalize "/a//b/" = "/a/b/" := by decide
example : pathResolve "/srv/www//x" = "/srv/www/x" := by decide
example : pathJoin "/srv/www" "/x" = "/srv/www/x" := by decide
example : extname "/a/b.TXT" = ".TXT" := by decide
example : extname "/a/.bashrc" = "" := by decide
example : extname "/a/file." = "." := by decide
example : extname "/a/noext" = "" := by decide

/-! ## Server configuration and data model -/

/-- The canonical root directory.  The source computes
`path.resolve(process.env.WEBROOT or "./public")` once at startup; the
model fixes one representative absolute, normalized root. -/
def WEBROOT : String := "/srv/www"

/-- The MIME type table of the source, keyed by lowercase extension. -/
def MIME_TYPES : List (String × String) :=
  [(".html", "text/html"),
   (".css", "text/css"),
   (".js", "application/javascript"),
   (".json", "application/json"),
   (".png", "image/png"),
   (".jpg", "image/jpeg"),
   (".jpeg", "image/jpeg"),
   (".gif", "image/gif"),
   (".svg", "image/svg+xml"),
   (".ico", "image/x-icon"),
   (".txt", "text/plain"),
   (".xml", "application/xml"),
   (".pdf", "application/pdf"),
   (".woff", "font/woff"),
   (".woff2", "font/woff2"),
   (".ttf", "font/ttf"),
   (".webp", "image/webp")]

/-- Metadata returned by a successful `fs.stat`. -/
structure Stats where
  isDir : Bool
  size : Nat
  mtimeMs : Nat
  deriving Repr, DecidableEq

/-- The outcome of an `fs.stat` call: `enoent` is the error with code
`ENOENT`, `otherErr` any other filesystem error. -/
inductive StatOutcome where
  | enoent
  | otherErr
  | ok (s : Stats)
  deriving Repr, DecidableEq

/-- Abstract filesystem: metadata lookup and file contents (the byte
stream delivered by `fs.createReadStream`, modelled as a string of
bytes). -/
structure FileSys where
  stat : String → StatOutcome
  read : String → String

/-- The parts of an inbound request the handler consumes: method, raw
request target (`req.url`), the `Host` header if present, and the
`If-Modified-Since` header if present. -/
structure Request where
  method : String
  url : String
  host : Option String
  ifModifiedSince : Option String
  deriving Repr, DecidableEq

/-- An HTTP response as observed on the wire: status, headers in emission
order, and body bytes. -/
structure Response where
  status : Nat
  headers : List (String × String)
  body : String
  deriving Repr, DecidableEq

/-- Model of `http.ServerResponse`: `writeHead` followed by `end(body)`.
Node's response object suppresses the body on the wire when the request
method is `HEAD` or the status is `204` or `304` (`_hasBody` is false), so
the emitted body is empty in those cases regardless of what the handler
passed to `end`. -/
def emit (method : String) (status : Nat) (headers : List (String × String))
    (body : String) : Response :=
  { status := status, headers := headers,
    body := if method = "HEAD" ∨ status = 204 ∨ status = 304 then "" else body }

/-- The string interpolation `http://(req.headers.host)`: a missing `Host`
header is the JavaScript value `undefined`, which interpolates as the text
`undefined`. -/
def hostStr : Option String → String
  | some h => h
  | none => "undefined"

/-! ## The server functions (translated from `server.js`) -/

/-- The method gate of `handleRequest`: the source accepts exactly `GET`
and `HEAD` (`req.method !== GET && req.method !== HEAD` rejects). -/
def methodAllowed (m : String) : Bool := m = "GET" || m = "HEAD"

/-- The raw-URL pre-screen of `handleRequest`: the raw target is rejected
when it contains the literal substring `..`, or `%2e%2e`, or `%2E%2E`. -/
def rawSuspicious (rawUrl : String) : Bool :=
  strContains rawUrl ".." || strContains rawUrl "%2e%2e" ||
  strContains rawUrl "%2E%2E"

/-- Translation of `isPathSafe` from the source: normalize, resolve, and
check that the resolved path starts with the resolved webroot. -/
def isPathSafe (requestedPath : String) : Bool :=
  let normalized := pathNormalize requestedPath
  let resolved := pathResolve normalized
  let webroot := pathResolve WEBROOT
  strStarts resolved webroot

/-- Translation of `getMimeType` from the source: lowercase extension
looked up in the fixed table, with `application/octet-stream` fallback. -/
def getMimeType (filePath : String) : String :=
  let ext := asciiLower (extname filePath)
  match MIME_TYPES.lookup ext with
  | some t => t
  | none => "application/octet-stream"

/-- Translation of `sendError` from the source: a plain-text body
`<code> <message>\n` with its byte length as `Content-Length` (the bodies
are ASCII, so `Buffer.byteLength` is the character count). -/
def sendError (req : Request) (statusCode : Nat) (message : String) : Response :=
  let body := toString statusCode ++ " " ++ message ++ "\n"
  emit req.method statusCode
    [("Content-Type", "text/plain"), ("Content-Length", toString body.length)]
    body

/-- The conditional-request evaluation inside `serveFile`: the
`If-Modified-Since` header, when present and truthy (nonempty), is parsed
with `new Date`, and the file is considered unmodified when the reparsed
`Last-Modified` timestamp (the mtime truncated to seconds, see `truncSec`)
is less than or equal to it; a JavaScript comparison against an invalid
date is false. -/
def notModifiedCheck (req : Request) (mtimeMs : Nat) : Bool :=
  match req.ifModifiedSince with
  | none => false
  | some ims =>
    if ims = "" then false
    else
      match dateParse ims with
      | none => false
      | some t => decide (truncSec mtimeMs ≤ t)

/-- Translation of `serveFile` from the source.  Returns the response and
the list of paths opened for reading (the `fs.createReadStream` call of
the GET branch). -/
def serveFile (fs : FileSys) (filePath : String) (stats : Stats)
    (req : Request) : Response × List String :=
  let mimeType := getMimeType filePath
  let fileSize := stats.size
  let lastModified := toUTCString stats.mtimeMs
  if notModifiedCheck req stats.mtimeMs then
    (emit req.method 304
      [("Last-Modified", lastModified), ("Cache-Control", "public, max-age=60")]
      "", [])
  else
    let hdrs := [("Content-Type", mimeType),
                 ("Content-Length", toString fileSize),
                 ("Last-Modified", lastModified),
                 ("Cache-Control", "public, max-age=60")]
    if req.method = "HEAD" then
      (emit req.method 200 hdrs "", [])
    else
      (emit req.method 200 hdrs (fs.read filePath), [filePath])

/-- The candidate filesystem path the handler forms from a decoded
pathname: the source's `path.join(WEBROOT, path.normalize(pathname))`. -/
def candidatePath (pathname : String) : String :=
  pathJoin WEBROOT (pathNormalize pathname)

/-- Translation of `handleRequest` from the source.  Returns the response
together with the list of filesystem paths touched (stat or open), in
order. -/
def handleRequest (fs : FileSys) (req : Request) : Response × List String :=
  if !methodAllowed req.method then
    (emit req.method 405
      [("Allow", "GET, HEAD"), ("Content-Type", "text/plain")]
      "405 Method Not Allowed\n", [])
  else
    let rawUrl := req.url
    if rawSuspicious rawUrl then
      (sendError req 403 "Forbidden", [])
    else
      match urlPathname req.url (hostStr req.host) with
      | none => (sendError req 400 "Bad Request", [])
      | some pathname =>
        let filePath := candidatePath pathname
        if !isPathSafe filePath then
          (sendError req 403 "Forbidden", [])
        else
          match fs.stat filePath with
          | .enoent => (sendError req 404 "Not Found", [filePath])
          | .otherErr => (sendError req 500 "Internal Server Error", [filePath])
          | .ok stats =>
            if stats.isDir then
              let indexPath := pathJoin filePath "index.html"
              match fs.stat indexPath with
              | .ok indexStats =>
                ((serveFile fs indexPath indexStats req).1,
                  filePath :: indexPath :: (serveFile fs indexPath indexStats req).2)
              | _ => (sendError req 403 "Forbidden", [filePath, indexPath])
            else
              ((serveFile fs filePath stats req).1,
                filePath :: (serveFile fs filePath stats req).2)

/-! ## Concrete fixtures used by witnesses and counterexamples -/

/-- A filesystem with nothing in it: every stat fails with `ENOENT`. -/
def fsEmpty : FileSys := FileSys.mk (fun _ => StatOutcome.enoent) (fun _ => "")

/-- Metadata of a 5-byte regular file modified 1 second after the epoch. -/
def fileStats : Stats := Stats.mk false 5 1000

/-- A filesystem holding the single regular file `/srv/www/x` (contents
`hello`). -/
def fsX : FileSys :=
  FileSys.mk
    (fun p => if p = "/srv/www/x" then StatOutcome.ok fileStats else StatOutcome.enoent)
    (fun p => if p = "/srv/www/x" then "hello" else "")

/-- Metadata of a directory entry. -/
def dirStats : Stats := Stats.mk true 4096 2000

/-- A filesystem where `/srv/www/d` is a directory and its `index.html`
entry is again a directory. -/
def fsDirIndexDir : FileSys :=
  FileSys.mk
    (fun p =>
      if p = "/srv/www/d" ∨ p = "/srv/www/d/index.html" then StatOutcome.ok dirStats
      else StatOutcome.enoent)
    (fun _ => "")

example :
    (handleRequest fsX (Request.mk "GET" "/x" (some "localhost") none)).1.status
      = 200 := by decide
example :
    (handleRequest fsX (Request.mk "GET" "/%2e%2E/x" (some "localhost") none)).1.status
      = 200 := by decide
example :
    (handleRequest fsEmpty (Request.mk "GET" "/%zz" (some "localhost") none)).1.status
      = 404 := by decide
example :
    (handleRequest fsX (Request.mk "POST" "/x" (some "localhost") none)).1.status
      = 405 := by decide
example :
    (handleRequest fsX (Request.mk "GET" "/index.html?x=.." (some "localhost") none)).1.status
      = 403 := by decide

/-! ## Shared pipeline lemmas -/

/-- When the method gate, the raw-URL pre-screen, the URL parse and the
containment check all pass, the handler's outcome is decided by the stat of
the candidate path. -/
theorem handleRequest_eq_stat (fs : FileSys) (req : Request) (pn : String)
    (hm : methodAllowed req.method = true)
    (hraw : rawSuspicious req.url = false)
    (hurl : urlPathname req.url (hostStr req.host) = some pn)
    (hsafe : isPathSafe (candidatePath pn) = true) :
    handleRequest fs req =
      match fs.stat (candidatePath pn) with
      | StatOutcome.enoent => (sendError req 404 "Not Found", [candidatePath pn])
      | StatOutcome.otherErr =>
          (sendError req 500 "Internal Server Error", [candidatePath pn])
      | StatOutcome.ok stats =>
        if stats.isDir then
          match fs.stat (pathJoin (candidatePath pn) "index.html") with
          | StatOutcome.ok indexStats =>
            ((serveFile fs (pathJoin (candidatePath pn) "index.html") indexStats req).1,
              candidatePath pn :: pathJoin (candidatePath pn) "index.html" ::
                (serveFile fs (pathJoin (candidatePath pn) "index.html") indexStats req).2)
          | _ => (sendError req 403 "Forbidden",
                  [candidatePath pn, pathJoin (candidatePath pn) "index.html"])
        else
          ((serveFile fs (candidatePath pn) stats req).1,
            candidatePath pn :: (serveFile fs (candidatePath pn) stats req).2) := by
  unfold handleRequest
  simp [hm, hraw, hurl, hsafe]

/-- The status of `sendError` is the status code it is given, and its body
on the wire is the one-line message except for `HEAD` requests, whose body
is suppressed. -/
theorem sendError_status (req : Request) (c : Nat) (m : String) :
    (sendError req c m).status = c := by
  simp [sendError, emit]

/-! ## Claims -/

/-- C1 (counterexample): a raw target carrying `..` percent-encoded with
mixed case, `/%2e%2E/x`, is not screened: on a filesystem where the
resolved location exists the response is 200, not 403. -/
theorem claim1_counterexample :
    (handleRequest fsX (Request.mk "GET" "/%2e%2E/x" (some "localhost") none)).1.status
        = 200 ∧
    ¬ (handleRequest fsX (Request.mk "GET" "/%2e%2E/x" (some "localhost") none)).1.status
        = 403 := by
  decide

/-- C1 (amended): for every GET or HEAD request whose raw (undecoded)
target contains the literal substring `..`, or its percent-encoded form in
uniform case (`%2e%2e` or `%2E%2E`), the response is 403 with no
filesystem access, regardless of whether a file exists at the location the
target would resolve to; mixed-case encodings such as `%2e%2E` are not
covered by the pre-screen. -/
theorem claim1_rawPrescreen_403 (fs : FileSys) (req : Request)
    (hm : methodAllowed req.method = true)
    (hraw : rawSuspicious req.url = true) :
    handleRequest fs req = (sendError req 403 "Forbidden", []) ∧
    (handleRequest fs req).1.status = 403 := by
  have h : handleRequest fs req = (sendError req 403 "Forbidden", []) := by
    unfold handleRequest
    simp [hm, hraw]
  exact ⟨h, by rw [h]; exact sendError_status req 403 "Forbidden"⟩

/-- C1 (witness): the request `GET /%2e%2e/x` is screened and rejected
with 403 even though `/srv/www/x` exists. -/
theorem claim1_rawPrescreen_403_witness :
    methodAllowed "GET" = true ∧
    rawSuspicious "/%2e%2e/x" = true ∧
    (handleRequest fsX (Request.mk "GET" "/%2e%2e/x" (some "localhost") none)).1.status
      = 403 :=
  ⟨by decide, by decide,
    (claim1_rawPrescreen_403 fsX (Request.mk "GET" "/%2e%2e/x" (some "localhost") none)
      (by decide) (by decide)).2⟩

/-- C5: for every request whose method is neither GET nor HEAD the
response is exactly the 405 response with header `Allow: GET, HEAD`,
produced with no filesystem access, and it is independent of the request
target. -/
theorem claim5_method_gate (fs : FileSys) (req : Request)
    (hm : methodAllowed req.method = false) :
    handleRequest fs req =
      (emit req.method 405
        [("Allow", "GET, HEAD"), ("Content-Type", "text/plain")]
        "405 Method Not Allowed\n", []) ∧
    (handleRequest fs req).1.status = 405 ∧
    ("Allow", "GET, HEAD") ∈ (handleRequest fs req).1.headers ∧
    (handleRequest fs req).2 = [] ∧
    ∀ u : String,
      handleRequest fs (Request.mk req.method u req.host req.ifModifiedSince)
        = handleRequest fs req := by
  have h : ∀ u : String,
      handleRequest fs (Request.mk req.method u req.host req.ifModifiedSince)
        = (emit req.method 405
            [("Allow", "GET, HEAD"), ("Content-Type", "text/plain")]
            "405 Method Not Allowed\n", []) := by
    intro u
    unfold handleRequest
    simp [hm]
  have h0 : handleRequest fs req =
      (emit req.method 405
        [("Allow", "GET, HEAD"), ("Content-Type", "text/plain")]
        "405 Method Not Allowed\n", []) := by
    unfold handleRequest
    simp [hm]
  refine ⟨h0, by rw [h0]; simp [emit], by rw [h0]; simp [emit], by rw [h0], ?_⟩
  intro u
  rw [h u, h0]

/-- C5 (witness): a POST request gets the 405 outcome even for an existing
target. -/
theorem claim5_method_gate_witness :
    methodAllowed "POST" = false ∧
    (handleRequest fsX (Request.mk "POST" "/x" (some "localhost") none)).1.status = 405 :=
  ⟨by decide,
    (claim5_method_gate fsX (Request.mk "POST" "/x" (some "localhost") none)
      (by decide)).2.1⟩

/-- C8 (counterexample): the target `/%zz` has a malformed percent-escape
sequence but does not make the URL constructor throw; with a valid host
the request proceeds to the filesystem and gets 404 on an empty root,
not 400. -/
theorem claim8_counterexample :
    (handleRequest fsEmpty (Request.mk "GET" "/%zz" (some "localhost") none)).1.status
        = 404 ∧
    ¬ (handleRequest fsEmpty (Request.mk "GET" "/%zz" (some "localhost") none)).1.status
        = 400 := by
  decide

/-- C8 (amended): for every request whose target fails to parse against
the synthetic base built from the Host header — in particular when that
base has an invalid authority — the response is 400 Bad Request; a
malformed percent-escape sequence alone does not cause a parse failure
and therefore does not yield 400. -/
theorem claim8_parse_failure_400 (fs : FileSys) (req : Request)
    (hm : methodAllowed req.method = true)
    (hraw : rawSuspicious req.url = false)
    (hurl : urlPathname req.url (hostStr req.host) = none) :
    handleRequest fs req = (sendError req 400 "Bad Request", []) ∧
    (handleRequest fs req).1.status = 400 := by
  have h : handleRequest fs req = (sendError req 400 "Bad Request", []) := by
    unfold handleRequest
    simp [hm, hraw, hurl]
  exact ⟨h, by rw [h]; exact sendError_status req 400 "Bad Request"⟩

/-- C8 (witness): a Host header containing a space makes the synthetic
base invalid, so the request is rejected with 400. -/
theorem claim8_parse_failure_400_witness :
    methodAllowed "GET" = true ∧
    rawSuspicious "/x" = false ∧
    urlPathname "/x" (hostStr (some "a b")) = none ∧
    (handleRequest fsX (Request.mk "GET" "/x" (some "a b") none)).1.status = 400 :=
  ⟨by decide, by decide, by decide,
    (claim8_parse_failure_400 fsX (Request.mk "GET" "/x" (some "a b") none)
      (by decide) (by decide) (by decide)).2⟩

/-- C9: the raw-path pre-screen applies to the whole raw target including
the query string: a GET or HEAD request for `/index.html` whose query
carries `..`, `%2e%2e` or `%2E%2E` is answered 403 with no filesystem
access, whatever files exist. -/
theorem claim9_query_prescreen (fs : FileSys) (h : Option String) (i : Option String) :
    (handleRequest fs (Request.mk "GET" "/index.html?x=.." h i)
        = (sendError (Request.mk "GET" "/index.html?x=.." h i) 403 "Forbidden", []) ∧
      (handleRequest fs (Request.mk "GET" "/index.html?x=.." h i)).1.status = 403) ∧
    (handleRequest fs (Request.mk "HEAD" "/index.html?x=.." h i)).1.status = 403 ∧
    (handleRequest fs (Request.mk "GET" "/index.html?a=%2e%2e" h i)).1.status = 403 ∧
    (handleRequest fs (Request.mk "GET" "/index.html?a=%2E%2E" h i)).1.status = 403 := by
  have k : ∀ (m u : String), methodAllowed m = true → rawSuspicious u = true →
      handleRequest fs (Request.mk m u h i)
        = (sendError (Request.mk m u h i) 403 "Forbidden", []) := by
    intro m u hm hraw
    unfold handleRequest
    simp [hm, hraw]
  have k1 := k "GET" "/index.html?x=.." (by decide) (by decide)
  have k2 := k "HEAD" "/index.html?x=.." (by decide) (by decide)
  have k3 := k "GET" "/index.html?a=%2e%2e" (by decide) (by decide)
  have k4 := k "GET" "/index.html?a=%2E%2E" (by decide) (by decide)
  exact ⟨⟨k1, by rw [k1]; exact sendError_status _ 403 "Forbidden"⟩,
    by rw [k2]; exact sendError_status _ 403 "Forbidden",
    by rw [k3]; exact sendError_status _ 403 "Forbidden",
    by rw [k4]; exact sendError_status _ 403 "Forbidden"⟩

/-- C2: the containment check on the candidate path is the gate to the
filesystem: a request whose candidate path fails `isPathSafe` is answered
403 with no filesystem access; whenever any filesystem access happens the
candidate path passed the check; and the first path touched is exactly the
checked candidate path. -/
theorem claim2_containment_gate (fs : FileSys) (req : Request) (pn : String)
    (hm : methodAllowed req.method = true)
    (hraw : rawSuspicious req.url = false)
    (hurl : urlPathname req.url (hostStr req.host) = some pn) :
    (isPathSafe (candidatePath pn) = false →
      handleRequest fs req = (sendError req 403 "Forbidden", [])) ∧
    ((handleRequest fs req).2 ≠ [] → isPathSafe (candidatePath pn) = true) ∧
    (isPathSafe (candidatePath pn) = true →
      (handleRequest fs req).2.head? = some (candidatePath pn)) := by
  by_cases hsafe : isPathSafe (candidatePath pn) = true
  · have h := handleRequest_eq_stat fs req pn hm hraw hurl hsafe
    refine ⟨fun hcontra => absurd hsafe (by simp [hcontra]), fun _ => hsafe, fun _ => ?_⟩
    rw [h]
    cases hst : fs.stat (candidatePath pn) with
    | enoent => rfl
    | otherErr => rfl
    | ok stats =>
      by_cases hd : stats.isDir = true
      · simp only [hd, if_true]
        cases hidx : fs.stat (pathJoin (candidatePath pn) "index.html") <;> rfl
      · simp only [Bool.not_eq_true] at hd
        simp [hd]
  · simp only [Bool.not_eq_true] at hsafe
    have hneg : (!isPathSafe (candidatePath pn)) = true := by rw [hsafe]; rfl
    have h : handleRequest fs req = (sendError req 403 "Forbidden", []) := by
      unfold handleRequest
      simp only [hm, hraw, hurl, hneg, Bool.not_true, Bool.false_eq_true,
        if_false, if_true]
    refine ⟨fun _ => h, fun hacc => absurd (by rw [h]) hacc, fun hcontra => ?_⟩
    rw [hsafe] at hcontra
    exact absurd hcontra (by decide)

/-- C2 (witness): for the request `GET /` on an empty root, the pipeline
conditions hold and the theorem's guarantees apply at the concrete
candidate path. -/
theorem claim2_containment_gate_witness :
    methodAllowed "GET" = true ∧
    rawSuspicious "/" = false ∧
    urlPathname "/" (hostStr (some "localhost")) = some "/" ∧
    ((handleRequest fsEmpty (Request.mk "GET" "/" (some "localhost") none)).2 ≠ [] →
      isPathSafe (candidatePath "/") = true) :=
  ⟨by decide, by decide, by decide,
    (claim2_containment_gate fsEmpty (Request.mk "GET" "/" (some "localhost") none) "/"
      (by decide) (by decide) (by decide)).2.1⟩

/-- C4: once the pipeline reaches the filesystem, the stat of the
candidate path decides the outcome: `ENOENT` gives 404 (never 500), any
other stat error gives 500, a directory leads to a second stat of the
fixed `index.html` inside it whose failure for any reason gives 403
(never 404) and whose success hands the index file to the streamer, and a
non-directory is handed to the streamer directly. -/
theorem claim4_stat_outcomes (fs : FileSys) (req : Request) (pn : String)
    (hm : methodAllowed req.method = true)
    (hraw : rawSuspicious req.url = false)
    (hurl : urlPathname req.url (hostStr req.host) = some pn)
    (hsafe : isPathSafe (candidatePath pn) = true) :
    (fs.stat (candidatePath pn) = StatOutcome.enoent →
      handleRequest fs req = (sendError req 404 "Not Found", [candidatePath pn]) ∧
      (handleRequest fs req).1.status = 404) ∧
    (fs.stat (candidatePath pn) = StatOutcome.otherErr →
      handleRequest fs req
        = (sendError req 500 "Internal Server Error", [candidatePath pn]) ∧
      (handleRequest fs req).1.status = 500) ∧
    (∀ st : Stats, fs.stat (candidatePath pn) = StatOutcome.ok st → st.isDir = true →
      (∀ ist : Stats,
        fs.stat (pathJoin (candidatePath pn) "index.html") = StatOutcome.ok ist →
        (handleRequest fs req).1
          = (serveFile fs (pathJoin (candidatePath pn) "index.html") ist req).1) ∧
      (fs.stat (pathJoin (candidatePath pn) "index.html") = StatOutcome.enoent →
        (handleRequest fs req).1 = sendError req 403 "Forbidden" ∧
        (handleRequest fs req).1.status = 403) ∧
      (fs.stat (pathJoin (candidatePath pn) "index.html") = StatOutcome.otherErr →
        (handleRequest fs req).1 = sendError req 403 "Forbidden" ∧
        (handleRequest fs req).1.status = 403)) ∧
    (∀ st : Stats, fs.stat (candidatePath pn) = StatOutcome.ok st → st.isDir = false →
      (handleRequest fs req).1 = (serveFile fs (candidatePath pn) st req).1) := by
  have h := handleRequest_eq_stat fs req pn hm hraw hurl hsafe
  refine ⟨fun hst => ?_, fun hst => ?_, fun st hst hd => ?_, fun st hst hd => ?_⟩
  · rw [h, hst]
    exact ⟨rfl, sendError_status req 404 "Not Found"⟩
  · rw [h, hst]
    exact ⟨rfl, sendError_status req 500 "Internal Server Error"⟩
  · refine ⟨fun ist hidx => ?_, fun hidx => ?_, fun hidx => ?_⟩
    · rw [h, hst]
      simp [hd, hidx]
    · refine ⟨?_, ?_⟩
      · rw [h, hst]
        simp [hd, hidx]
      · rw [h, hst]
        simp [hd, hidx, sendError, emit]
    · refine ⟨?_, ?_⟩
      · rw [h, hst]
        simp [hd, hidx]
      · rw [h, hst]
        simp [hd, hidx, sendError, emit]
  · rw [h, hst]
    simp [hd]

/-- When the conditional check succeeds, `serveFile` produces the 304
response: `Last-Modified` and `Cache-Control` headers, empty body, no file
opened. -/
theorem serveFile_304 (fs : FileSys) (fp : String) (st : Stats) (req : Request)
    (hnm : notModifiedCheck req st.mtimeMs = true) :
    serveFile fs fp st req =
      (emit req.method 304
        [("Last-Modified", toUTCString st.mtimeMs),
         ("Cache-Control", "public, max-age=60")] "", []) := by
  unfold serveFile
  simp [hnm]

/-- When the conditional check fails, `serveFile` produces the full 200
response; the wire body is the file contents except for `HEAD`. -/
theorem serveFile_full (fs : FileSys) (fp : String) (st : Stats) (req : Request)
    (hnm : notModifiedCheck req st.mtimeMs = false) :
    (serveFile fs fp st req).1 =
      emit req.method 200
        [("Content-Type", getMimeType fp),
         ("Content-Length", toString st.size),
         ("Last-Modified", toUTCString st.mtimeMs),
         ("Cache-Control", "public, max-age=60")]
        (if req.method = "HEAD" then "" else fs.read fp) := by
  unfold serveFile
  rw [hnm]
  by_cases hh : req.method = "HEAD" <;> simp [hh, emit]

/-- C4 (witness): on the empty root the candidate path for `GET /x` stats
to `ENOENT` and the response is the 404 outcome. -/
theorem claim4_stat_outcomes_witness :
    methodAllowed "GET" = true ∧
    rawSuspicious "/x" = false ∧
    urlPathname "/x" (hostStr (some "localhost")) = some "/x" ∧
    isPathSafe (candidatePath "/x") = true ∧
    (handleRequest fsEmpty (Request.mk "GET" "/x" (some "localhost") none)
      = (sendError (Request.mk "GET" "/x" (some "localhost") none) 404 "Not Found",
         [candidatePath "/x"]) ∧
     (handleRequest fsEmpty (Request.mk "GET" "/x" (some "localhost") none)).1.status
       = 404) :=
  ⟨by decide, by decide, by decide, by decide,
    (claim4_stat_outcomes fsEmpty (Request.mk "GET" "/x" (some "localhost") none) "/x"
      (by decide) (by decide) (by decide) (by decide)).1 (by decide)⟩

/-- C3: for a request that reaches a regular file and carries an
`If-Modified-Since` header, if the header parses to a timestamp at or
after the file's modification time truncated to seconds, the response is
304 with `Last-Modified` and `Cache-Control` headers and an empty body
(whatever the method); if the truncated modification time is strictly
later, the response is the full 200 (with the file's bytes as body for
GET); and an unparseable header is treated exactly as an absent one and
never yields an error response. -/
theorem claim3_conditional (fs : FileSys) (req : Request) (pn : String)
    (st : Stats) (s : String)
    (hm : methodAllowed req.method = true)
    (hraw : rawSuspicious req.url = false)
    (hurl : urlPathname req.url (hostStr req.host) = some pn)
    (hsafe : isPathSafe (candidatePath pn) = true)
    (hstat : fs.stat (candidatePath pn) = StatOutcome.ok st)
    (hdir : st.isDir = false)
    (hims : req.ifModifiedSince = some s) :
    (∀ t : Nat, dateParse s = some t → truncSec st.mtimeMs ≤ t →
      handleRequest fs req =
        (emit req.method 304
          [("Last-Modified", toUTCString st.mtimeMs),
           ("Cache-Control", "public, max-age=60")] "",
         [candidatePath pn]) ∧
      (handleRequest fs req).1.status = 304 ∧
      (handleRequest fs req).1.body = "") ∧
    (∀ t : Nat, dateParse s = some t → t < truncSec st.mtimeMs →
      (handleRequest fs req).1.status = 200 ∧
      (handleRequest fs req).1.headers =
        [("Content-Type", getMimeType (candidatePath pn)),
         ("Content-Length", toString st.size),
         ("Last-Modified", toUTCString st.mtimeMs),
         ("Cache-Control", "public, max-age=60")] ∧
      (req.method = "GET" →
        (handleRequest fs req).1.body = fs.read (candidatePath pn))) ∧
    (dateParse s = none →
      handleRequest fs req
        = handleRequest fs (Request.mk req.method req.url req.host none) ∧
      (handleRequest fs req).1.status = 200) := by
  have h := handleRequest_eq_stat fs req pn hm hraw hurl hsafe
  have hmain : handleRequest fs req =
      ((serveFile fs (candidatePath pn) st req).1,
        candidatePath pn :: (serveFile fs (candidatePath pn) st req).2) := by
    rw [h, hstat]
    simp [hdir]
  have hne : ∀ t : Nat, dateParse s = some t → s ≠ "" := by
    intro t hp he
    rw [he] at hp
    have hz : dateParse "" = none := by decide
    rw [hz] at hp
    exact Option.noConfusion hp
  refine ⟨fun t hp hle => ?_, fun t hp hlt => ?_, fun hp => ?_⟩
  · have hnm : notModifiedCheck req st.mtimeMs = true := by
      unfold notModifiedCheck
      rw [hims]
      simp [hne t hp, hp, hle]
    have h304 := serveFile_304 fs (candidatePath pn) st req hnm
    refine ⟨?_, ?_, ?_⟩
    · rw [hmain, h304]
    · rw [hmain, h304]
      simp [emit]
    · rw [hmain, h304]
      simp [emit]
  · have hnm : notModifiedCheck req st.mtimeMs = false := by
      unfold notModifiedCheck
      rw [hims]
      simp [hne t hp, hp]
      omega
    have hfull := serveFile_full fs (candidatePath pn) st req hnm
    refine ⟨?_, ?_, fun hg => ?_⟩
    · rw [hmain]
      simp [hfull, emit]
    · rw [hmain]
      simp [hfull, emit]
    · rw [hmain]
      simp [hfull, emit, hg]
  · have hnm : notModifiedCheck req st.mtimeMs = false := by
      unfold notModifiedCheck
      rw [hims]
      by_cases hse : s = ""
      · simp [hse]
      · simp [hse, hp]
    have hnm0 : notModifiedCheck (Request.mk req.method req.url req.host none)
        st.mtimeMs = false := rfl
    have h0 := handleRequest_eq_stat fs (Request.mk req.method req.url req.host none)
      pn hm hraw hurl hsafe
    have hmain0 : handleRequest fs (Request.mk req.method req.url req.host none) =
        ((serveFile fs (candidatePath pn) st
            (Request.mk req.method req.url req.host none)).1,
          candidatePath pn :: (serveFile fs (candidatePath pn) st
            (Request.mk req.method req.url req.host none)).2) := by
      rw [h0, hstat]
      simp [hdir]
    have hsf : serveFile fs (candidatePath pn) st req
        = serveFile fs (candidatePath pn) st
            (Request.mk req.method req.url req.host none) := by
      unfold serveFile
      rw [hnm, hnm0]
    refine ⟨?_, ?_⟩
    · rw [hmain, hmain0, hsf]
    · rw [hmain]
      simp [serveFile_full fs (candidatePath pn) st req hnm, emit]

/-- C3 (witness): with the file's exact `Last-Modified` value as
`If-Modified-Since`, the request for `/x` is answered 304 with empty
body. -/
theorem claim3_conditional_witness :
    methodAllowed "GET" = true ∧
    rawSuspicious "/x" = false ∧
    urlPathname "/x" (hostStr (some "localhost")) = some "/x" ∧
    isPathSafe (candidatePath "/x") = true ∧
    fsX.stat (candidatePath "/x") = StatOutcome.ok fileStats ∧
    fileStats.isDir = false ∧
    dateParse "Thu, 01 Jan 1970 00:00:01 GMT" = some 1000 ∧
    truncSec fileStats.mtimeMs ≤ 1000 ∧
    ((handleRequest fsX (Request.mk "GET" "/x" (some "localhost")
        (some "Thu, 01 Jan 1970 00:00:01 GMT"))).1.status = 304 ∧
      (handleRequest fsX (Request.mk "GET" "/x" (some "localhost")
        (some "Thu, 01 Jan 1970 00:00:01 GMT"))).1.body = "") :=
  ⟨by decide, by decide, by decide, by decide, by decide, by decide, by decide, by decide,
    ((claim3_conditional fsX
        (Request.mk "GET" "/x" (some "localhost") (some "Thu, 01 Jan 1970 00:00:01 GMT"))
        "/x" fileStats "Thu, 01 Jan 1970 00:00:01 GMT"
        (by decide) (by decide) (by decide) (by decide) (by decide) (by decide)
        rfl).1 1000 (by decide) (by decide)).2⟩

/-- C7: a full 200 response for a regular file carries the file's bytes
as body, `Content-Length` equal to the stat size, `Content-Type` from the
lowercase-extension MIME table with the octet-stream fallback,
`Last-Modified` as the HTTP-date rendering of the modification time, and
`Cache-Control: public, max-age=60`; the file contents are read from the
candidate path itself. -/
theorem claim7_full_response (fs : FileSys) (req : Request) (pn : String) (st : Stats)
    (hmg : req.method = "GET")
    (hraw : rawSuspicious req.url = false)
    (hurl : urlPathname req.url (hostStr req.host) = some pn)
    (hsafe : isPathSafe (candidatePath pn) = true)
    (hstat : fs.stat (candidatePath pn) = StatOutcome.ok st)
    (hdir : st.isDir = false)
    (hnm : notModifiedCheck req st.mtimeMs = false) :
    handleRequest fs req =
      (emit req.method 200
        [("Content-Type", getMimeType (candidatePath pn)),
         ("Content-Length", toString st.size),
         ("Last-Modified", toUTCString st.mtimeMs),
         ("Cache-Control", "public, max-age=60")]
        (fs.read (candidatePath pn)),
       [candidatePath pn, candidatePath pn]) ∧
    (handleRequest fs req).1.status = 200 ∧
    (handleRequest fs req).1.body = fs.read (candidatePath pn) ∧
    ("Content-Length", toString st.size) ∈ (handleRequest fs req).1.headers ∧
    ("Last-Modified", toUTCString st.mtimeMs) ∈ (handleRequest fs req).1.headers ∧
    ("Cache-Control", "public, max-age=60") ∈ (handleRequest fs req).1.headers ∧
    getMimeType (candidatePath pn)
      = (MIME_TYPES.lookup (asciiLower (extname (candidatePath pn)))).getD
          "application/octet-stream" := by
  have hm : methodAllowed req.method = true := by
    rw [hmg]
    decide
  have h := handleRequest_eq_stat fs req pn hm hraw hurl hsafe
  have hmain : handleRequest fs req =
      ((serveFile fs (candidatePath pn) st req).1,
        candidatePath pn :: (serveFile fs (candidatePath pn) st req).2) := by
    rw [h, hstat]
    simp [hdir]
  have hsf : serveFile fs (candidatePath pn) st req =
      (emit req.method 200
        [("Content-Type", getMimeType (candidatePath pn)),
         ("Content-Length", toString st.size),
         ("Last-Modified", toUTCString st.mtimeMs),
         ("Cache-Control", "public, max-age=60")]
        (fs.read (candidatePath pn)),
       [candidatePath pn]) := by
    unfold serveFile
    rw [hnm]
    simp [hmg]
  refine ⟨?_, ?_, ?_, ?_, ?_, ?_, ?_⟩
  · rw [hmain, hsf]
  · rw [hmain, hsf]
    simp [emit]
  · rw [hmain, hsf]
    simp [emit, hmg]
  · rw [hmain, hsf]
    simp [emit]
  · rw [hmain, hsf]
    simp [emit]
  · rw [hmain, hsf]
    simp [emit]
  · rcases hl : MIME_TYPES.lookup (asciiLower (extname (candidatePath pn))) with _ | t
    · simp [getMimeType, hl]
    · simp [getMimeType, hl]

/-- C7 (witness): `GET /x` on the fixture returns the file's bytes with
the exact framing headers. -/
theorem claim7_full_response_witness :
    (Request.mk "GET" "/x" (some "localhost") none).method = "GET" ∧
    rawSuspicious "/x" = false ∧
    urlPathname "/x" (hostStr (some "localhost")) = some "/x" ∧
    isPathSafe (candidatePath "/x") = true ∧
    fsX.stat (candidatePath "/x") = StatOutcome.ok fileStats ∧
    fileStats.isDir = false ∧
    notModifiedCheck (Request.mk "GET" "/x" (some "localhost") none)
      fileStats.mtimeMs = false ∧
    (handleRequest fsX (Request.mk "GET" "/x" (some "localhost") none)).1.body
      = fsX.read (candidatePath "/x") :=
  ⟨rfl, by decide, by decide, by decide, by decide, by decide, rfl,
    (claim7_full_response fsX (Request.mk "GET" "/x" (some "localhost") none)
      "/x" fileStats rfl (by decide) (by decide) (by decide) (by decide)
      (by decide) rfl).2.2.1⟩

/-- C10: when a directory's `index.html` entry is itself a directory, the
second stat succeeds and its result is never checked for being a regular
file: the handler emits a 200 response whose `Content-Length` and
`Last-Modified` come from that directory's own metadata, rather than any
4xx rejection; only the later body read can fail. -/
theorem claim10_index_is_directory (fs : FileSys) (req : Request) (pn : String)
    (st ist : Stats)
    (hm : methodAllowed req.method = true)
    (hraw : rawSuspicious req.url = false)
    (hurl : urlPathname req.url (hostStr req.host) = some pn)
    (hsafe : isPathSafe (candidatePath pn) = true)
    (hstat : fs.stat (candidatePath pn) = StatOutcome.ok st)
    (hdir : st.isDir = true)
    (hidx : fs.stat (pathJoin (candidatePath pn) "index.html") = StatOutcome.ok ist)
    (_hidxdir : ist.isDir = true)
    (hims : req.ifModifiedSince = none) :
    (handleRequest fs req).1.status = 200 ∧
    (handleRequest fs req).1 =
      emit req.method 200
        [("Content-Type", getMimeType (pathJoin (candidatePath pn) "index.html")),
         ("Content-Length", toString ist.size),
         ("Last-Modified", toUTCString ist.mtimeMs),
         ("Cache-Control", "public, max-age=60")]
        (if req.method = "HEAD" then ""
         else fs.read (pathJoin (candidatePath pn) "index.html")) := by
  have h := handleRequest_eq_stat fs req pn hm hraw hurl hsafe
  have hnm : notModifiedCheck req ist.mtimeMs = false := by
    unfold notModifiedCheck
    rw [hims]
  have hmain : (handleRequest fs req).1 =
      (serveFile fs (pathJoin (candidatePath pn) "index.html") ist req).1 := by
    rw [h, hstat]
    simp [hdir, hidx]
  have hfull := serveFile_full fs (pathJoin (candidatePath pn) "index.html") ist req hnm
  refine ⟨?_, ?_⟩
  · rw [hmain, hfull]
    simp [emit]
  · rw [hmain, hfull]

/-- C10 (witness): the fixture has directory `/srv/www/d` whose
`index.html` entry is again a directory; `GET /d` is answered 200 with
headers from that directory's metadata. -/
theorem claim10_index_is_directory_witness :
    methodAllowed "GET" = true ∧
    rawSuspicious "/d" = false ∧
    urlPathname "/d" (hostStr (some "localhost")) = some "/d" ∧
    isPathSafe (candidatePath "/d") = true ∧
    fsDirIndexDir.stat (candidatePath "/d") = StatOutcome.ok dirStats ∧
    dirStats.isDir = true ∧
    fsDirIndexDir.stat (pathJoin (candidatePath "/d") "index.html")
      = StatOutcome.ok dirStats ∧
    (handleRequest fsDirIndexDir
      (Request.mk "GET" "/d" (some "localhost") none)).1.status = 200 :=
  ⟨by decide, by decide, by decide, by decide, by decide, by decide, by decide,
    (claim10_index_is_directory fsDirIndexDir
      (Request.mk "GET" "/d" (some "localhost") none) "/d" dirStats dirStats
      (by decide) (by decide) (by decide) (by decide) (by decide) (by decide)
      (by decide) (by decide) rfl).1⟩

/-- `sendError` gives a `HEAD` request an empty wire body and the same
status and headers as the corresponding `GET`. -/
theorem sendError_head_get (u : String) (h : Option String) (i : Option String)
    (c : Nat) (m : String) :
    (sendError (Request.mk "HEAD" u h i) c m).body = "" ∧
    (sendError (Request.mk "HEAD" u h i) c m).status
      = (sendError (Request.mk "GET" u h i) c m).status ∧
    (sendError (Request.mk "HEAD" u h i) c m).headers
      = (sendError (Request.mk "GET" u h i) c m).headers :=
  ⟨by simp [sendError, emit], by simp [sendError, emit], by simp [sendError, emit]⟩

/-- `serveFile` gives a `HEAD` request an empty wire body and the same
status and headers as the corresponding `GET`. -/
theorem serveFile_head_get (fs : FileSys) (fp : String) (st : Stats)
    (u : String) (h : Option String) (i : Option String) :
    (serveFile fs fp st (Request.mk "HEAD" u h i)).1.body = "" ∧
    (serveFile fs fp st (Request.mk "HEAD" u h i)).1.status
      = (serveFile fs fp st (Request.mk "GET" u h i)).1.status ∧
    (serveFile fs fp st (Request.mk "HEAD" u h i)).1.headers
      = (serveFile fs fp st (Request.mk "GET" u h i)).1.headers := by
  have hnmEq : notModifiedCheck (Request.mk "GET" u h i) st.mtimeMs
      = notModifiedCheck (Request.mk "HEAD" u h i) st.mtimeMs := rfl
  by_cases hnm : notModifiedCheck (Request.mk "HEAD" u h i) st.mtimeMs = true
  · have e1 := serveFile_304 fs fp st (Request.mk "HEAD" u h i) hnm
    have e2 := serveFile_304 fs fp st (Request.mk "GET" u h i) (hnmEq.trans hnm)
    rw [e1, e2]
    exact ⟨by simp [emit], by simp [emit], by simp [emit]⟩
  · have hnmf : notModifiedCheck (Request.mk "HEAD" u h i) st.mtimeMs = false := by
      simpa using hnm
    have e1 := serveFile_full fs fp st (Request.mk "HEAD" u h i) hnmf
    have e2 := serveFile_full fs fp st (Request.mk "GET" u h i) (hnmEq.trans hnmf)
    rw [e1, e2]
    exact ⟨by simp [emit], by simp [emit], by simp [emit]⟩

/-- C6: every HEAD response has an empty body whatever the outcome status,
and a HEAD request always receives the same status and the same header
list (hence the same Content-Type, Content-Length, Last-Modified and
Cache-Control) as the GET request for the same target, host and
conditional header. -/
theorem claim6_head_get_agree (fs : FileSys) (u : String) (h : Option String)
    (i : Option String) :
    (handleRequest fs (Request.mk "HEAD" u h i)).1.body = "" ∧
    (handleRequest fs (Request.mk "HEAD" u h i)).1.status
      = (handleRequest fs (Request.mk "GET" u h i)).1.status ∧
    (handleRequest fs (Request.mk "HEAD" u h i)).1.headers
      = (handleRequest fs (Request.mk "GET" u h i)).1.headers := by
  have hmh : methodAllowed "HEAD" = true := by decide
  have hmg : methodAllowed "GET" = true := by decide
  by_cases hraw : rawSuspicious u = true
  · have kH : handleRequest fs (Request.mk "HEAD" u h i)
        = (sendError (Request.mk "HEAD" u h i) 403 "Forbidden", []) := by
      unfold handleRequest
      simp [hmh, hraw]
    have kG : handleRequest fs (Request.mk "GET" u h i)
        = (sendError (Request.mk "GET" u h i) 403 "Forbidden", []) := by
      unfold handleRequest
      simp [hmg, hraw]
    rw [kH, kG]
    exact sendError_head_get u h i 403 "Forbidden"
  · have hraw' : rawSuspicious u = false := by simpa using hraw
    cases hu : urlPathname u (hostStr h) with
    | none =>
      have kH : handleRequest fs (Request.mk "HEAD" u h i)
          = (sendError (Request.mk "HEAD" u h i) 400 "Bad Request", []) := by
        unfold handleRequest
        simp [hmh, hraw', hu]
      have kG : handleRequest fs (Request.mk "GET" u h i)
          = (sendError (Request.mk "GET" u h i) 400 "Bad Request", []) := by
        unfold handleRequest
        simp [hmg, hraw', hu]
      rw [kH, kG]
      exact sendError_head_get u h i 400 "Bad Request"
    | some pn =>
      by_cases hsafe : isPathSafe (candidatePath pn) = true
      · have kH := handleRequest_eq_stat fs (Request.mk "HEAD" u h i) pn hmh hraw' hu hsafe
        have kG := handleRequest_eq_stat fs (Request.mk "GET" u h i) pn hmg hraw' hu hsafe
        rw [kH, kG]
        cases hst : fs.stat (candidatePath pn) with
        | enoent => exact sendError_head_get u h i 404 "Not Found"
        | otherErr => exact sendError_head_get u h i 500 "Internal Server Error"
        | ok stats =>
          by_cases hd : stats.isDir = true
          · simp only [hd, if_true]
            cases hidx : fs.stat (pathJoin (candidatePath pn) "index.html") with
            | enoent => exact sendError_head_get u h i 403 "Forbidden"
            | otherErr => exact sendError_head_get u h i 403 "Forbidden"
            | ok ist =>
              exact serveFile_head_get fs (pathJoin (candidatePath pn) "index.html")
                ist u h i
          · simp only [Bool.not_eq_true] at hd
            simp only [hd, Bool.false_eq_true, if_false]
            exact serveFile_head_get fs (candidatePath pn) stats u h i
      · simp only [Bool.not_eq_true] at hsafe
        have hneg : (!isPathSafe (candidatePath pn)) = true := by
          rw [hsafe]
          rfl
        have kH : handleRequest fs (Request.mk "HEAD" u h i)
            = (sendError (Request.mk "HEAD" u h i) 403 "Forbidden", []) := by
          unfold handleRequest
          simp only [hmh, hraw', hu, hneg, Bool.not_true, Bool.false_eq_true,
            if_false, if_true]
        have kG : handleRequest fs (Request.mk "GET" u h i)
            = (sendError (Request.mk "GET" u h i) 403 "Forbidden", []) := by
          unfold handleRequest
          simp only [hmg, hraw', hu, hneg, Bool.not_true, Bool.false_eq_true,
            if_false, if_true]
        rw [kH, kG]
        exact sendError_head_get u h i 403 "Forbidden"
